import Mathlib

/-!
Verification of the dataset-cursor core of the `polyanalyst6api` client
(`project.py`, `api.py`): the `retry_on_invalid_guid` decorator, the
`DataSet` wrapper-guid lifecycle, the lazy row iterator of
`DataSet.iter_rows`, and node resolution (`Project._find_node`).

The remote server is modelled as an oracle (`Server`): one pure response
function per endpoint, each allowed to depend on the whole request history
and on the wrapper guid sent, and each allowed to answer with an error.
Client-side mutable state (the cached wrapper guid) together with the
request log forms `DSState`; every client operation is a state-passing
function `DSState → DSState × Except PyErr α`, so that a Python method that
raises is an operation returning `.error` with the state mutations it
performed so far kept (Python exception semantics).
-/

set_option autoImplicit false

universe u

/-- Python exception values reachable from the modelled code.
`wrapperNotFound` models `_WrapperNotFound`; modelled from the spec:
`exceptions.py` is not part of the given sources, and per the spec the
server reply whose message is "The wrapper with the given GUID is not
found on the server" is mapped to this distinguished internal condition,
kept distinct from the generic `APIException`/`ClientException`. -/
inductive PyErr where
  | wrapperNotFound
  | apiError (message : String) (url : Option String) (statusCode : Option Nat)
  | clientError (message : String)
  | valueError (message : String)
  | indexError
  deriving DecidableEq, Repr

/-- One request issued to the server, as logged by the model.
`cellText` keeps the `colTitle` field the code still sends. -/
inductive Request where
  | info (guid : String)
  | progress (guid : String)
  | wrapperGuid
  | values (guid : String) (rowCount : Int)
  | cellText (guid : String) (row : Int) (col : Nat) (title : String)
  | projectExecute (nodes : List (String × String))
  deriving DecidableEq, Repr

/-- Requests of the two row-fetching endpoints (`dataset/values`,
`dataset/cell-text`). -/
def Request.isRowFetch : Request → Bool
  | .values _ _ => true
  | .cellText _ _ _ _ => true
  | _ => false

/-- The mutable client-side state: the cached wrapper guid
(`DataSet.guid` in `project.py`) plus the history of issued requests. -/
structure DSState where
  guid : String
  log : List Request
  deriving DecidableEq, Repr

/-- A client operation: state-passing with Python-style exceptions
(state mutations performed before a raise are kept). -/
def M (α : Type u) := DSState → DSState × Except PyErr α

def M.pure {α : Type u} (a : α) : M α := fun s => (s, .ok a)

def M.bind {α β : Type u} (m : M α) (f : α → M β) : M β := fun s =>
  match m s with
  | (s1, .ok a) => f a s1
  | (s1, .error e) => (s1, .error e)

instance : Monad M where
  pure := M.pure
  bind := M.bind

def M.throw {α : Type u} (e : PyErr) : M α := fun s => (s, .error e)

def M.ofExcept {α : Type u} (x : Except PyErr α) : M α := fun s => (s, x)

/-- `flags` dict of a column (`columnsInfo` entry); the code only reads
`getTextAlways`. -/
structure ColumnFlags where
  getTextAlways : Bool
  deriving DecidableEq, Repr

/-- One `columnsInfo` entry of the `dataset/info` response. -/
structure ColumnInfo where
  id : Nat
  title : String
  ctype : String
  flags : ColumnFlags
  deriving DecidableEq, Repr

/-- The `dataset/info` response fields the code reads. -/
structure DatasetInfo where
  rowCount : Nat
  columnsInfo : List ColumnInfo
  deriving DecidableEq, Repr

/-- The server oracle: one pure response function per endpoint.  Each
function sees the request history so far and the wrapper guid sent, and
may answer with any `PyErr` (in particular `wrapperNotFound`, the
modelled form of the guid-rejection reply).  `Cell` is the type of table
cell payloads (arbitrary JSON in Python); the `dataset/progress` and
`project/execute` payloads are opaque to the client and reuse `Cell`. -/
structure Server (Cell : Type) where
  infoResp : List Request → String → Except PyErr DatasetInfo
  progressResp : List Request → String → Except PyErr Cell
  wrapperGuidResp : List Request → Except PyErr String
  valuesResp : List Request → String → Int → Except PyErr (List (List Cell))
  cellTextResp : List Request → String → Int → Nat → Except PyErr Cell
  executeResp : List Request → List (String × String) → Except PyErr Cell

/-- A handle-scoped endpoint call: logs one request carrying the current
guid and returns the oracle's answer (the oracle sees the history up to,
not including, this request). -/
def handleOp {α : Type} (reqFn : String → Request)
    (oracle : List Request → String → Except PyErr α) : M α :=
  fun s => ({ s with log := s.log ++ [reqFn s.guid] }, oracle s.log s.guid)

/-- `DataSet._update_guid`: issues the `dataset/wrapper-guid` request and,
on success, overwrites the cached guid; a failed request leaves the guid
unchanged and re-raises. -/
def updateGuidOp (wg : List Request → Except PyErr String) : M Unit := fun s =>
  match wg s.log with
  | .ok g => ({ guid := g, log := s.log ++ [Request.wrapperGuid] }, .ok ())
  | .error e => ({ s with log := s.log ++ [Request.wrapperGuid] }, .error e)

/-- `retry_on_invalid_guid` (project.py:379-387): try `op`; only on
`_WrapperNotFound` run `update` (`cls._update_guid()`) and try `op` exactly
once more; every other outcome of either attempt passes through. -/
def retry_on_invalid_guid {α : Type} (update : M Unit) (op : M α) : M α := fun s =>
  match op s with
  | (s1, .ok a) => (s1, .ok a)
  | (s1, .error e) =>
    if e = PyErr.wrapperNotFound then
      match update s1 with
      | (s2, .ok _) => op s2
      | (s2, .error e2) => (s2, .error e2)
    else (s1, .error e)

/-- `DataSet.__init__`: the guid starts as the empty-string sentinel and
construction issues no request. -/
def DataSet.init : DSState := { guid := "", log := [] }

/-- `DataSet.get_info`: retry-wrapped `dataset/info` fetch. -/
def DataSet.get_info {Cell : Type} (srv : Server Cell) : M DatasetInfo :=
  retry_on_invalid_guid (updateGuidOp srv.wrapperGuidResp)
    (handleOp Request.info srv.infoResp)

/-- `DataSet.get_progress`: retry-wrapped `dataset/progress` fetch. -/
def DataSet.get_progress {Cell : Type} (srv : Server Cell) : M Cell :=
  retry_on_invalid_guid (updateGuidOp srv.wrapperGuidResp)
    (handleOp Request.progress srv.progressResp)

/-- `DataSet._values`: retry-wrapped bulk `dataset/values` fetch of the
first `row_count` rows (the `['table']` projection of the response is
folded into the oracle). -/
def DataSet.values {Cell : Type} (srv : Server Cell) (row_count : Int) :
    M (List (List Cell)) :=
  retry_on_invalid_guid (updateGuidOp srv.wrapperGuidResp)
    (handleOp (fun g => Request.values g row_count)
      (fun log g => srv.valuesResp log g row_count))

/-- `DataSet._cell_text`: retry-wrapped single-cell `dataset/cell-text`
fetch (the `['text']` projection of the response is folded into the
oracle). -/
def DataSet.cell_text {Cell : Type} (srv : Server Cell) (row : Int) (col : Nat)
    (title : String) : M Cell :=
  retry_on_invalid_guid (updateGuidOp srv.wrapperGuidResp)
    (handleOp (fun g => Request.cellText g row col title)
      (fun log g => srv.cellTextResp log g row col))

/-- Python list indexing `l[i]`: negative indices count from the end;
out of range raises `IndexError`. -/
def pyIndex {α : Type} (l : List α) (i : Int) : Except PyErr α :=
  let j : Int := if i < 0 then i + l.length else i
  if h : 0 ≤ j ∧ j < (l.length : Int) then
    .ok (l.get ⟨j.toNat, by omega⟩)
  else .error .indexError

/-- Python dict assignment `d[k] = v` on an association list: replaces the
value in place if the key is present, appends otherwise. -/
def dictInsert {Cell : Type} (k : String) (v : Cell) :
    List (String × Cell) → List (String × Cell)
  | [] => [(k, v)]
  | p :: rest => if p.1 = k then (k, v) :: rest else p :: dictInsert k v rest

/-- A produced row: the `result` dict of `RowIterator.__next__`, mapping
column title to cell value. -/
abbrev Row (Cell : Type) : Type := List (String × Cell)

/-- The state captured by the `RowIterator` closure inside
`DataSet.iter_rows`: the fetched `info`, the cached bulk block `rows`, the
`stop` bound, and the mutable cursor `idx`. -/
structure RowIter (Cell : Type) where
  info : DatasetInfo
  rows : List (List Cell)
  stop : Int
  idx : Int

/-- The per-row `for column in info['columnsInfo']` loop of
`RowIterator.__next__` (project.py:458-464): a `getTextAlways` column takes
its value from one `dataset/cell-text` request, any other column from the
cached bulk block `rows[idx][column['id']]`. -/
def buildRow {Cell : Type} (srv : Server Cell) (rows : List (List Cell))
    (idx : Int) : List ColumnInfo → Row Cell → M (Row Cell)
  | [], result => M.pure result
  | c :: cs, result =>
    if c.flags.getTextAlways then
      M.bind (DataSet.cell_text srv idx c.id c.title) fun t =>
        buildRow srv rows idx cs (dictInsert c.title t result)
    else
      M.bind (M.ofExcept (pyIndex rows idx)) fun r =>
        M.bind (M.ofExcept (pyIndex r (c.id : Int))) fun v =>
          buildRow srv rows idx cs (dictInsert c.title v result)

/-- `RowIterator.__next__` (project.py:454-467): `StopIteration` (modelled
as `none`) once `idx >= stop`, otherwise build the row dict and advance the
cursor. -/
def RowIter.next {Cell : Type} (srv : Server Cell) (it : RowIter Cell) :
    M (Option (Row Cell × RowIter Cell)) :=
  if it.stop ≤ it.idx then M.pure none
  else
    M.bind (buildRow srv it.rows it.idx it.info.columnsInfo []) fun row =>
      M.pure (some (row, { it with idx := it.idx + 1 }))

/-- The `ValueError` message of `DataSet.iter_rows` for out-of-range
bounds. -/
def rangeErrMsg (max_row : Nat) : String :=
  "start and stop arguments must be within dataset row range: (0, " ++
    toString max_row ++ ")"

/-- `DataSet.iter_rows` (project.py:416-469): fetch `dataset/info`
(a network call) first, default `stop` to `rowCount`, validate
`0 ≤ start ≤ stop ≤ rowCount` (raising `ValueError` otherwise), then fetch
the bulk block of the first `stop` rows once and return the iterator with
its cursor at `start`. -/
def iter_rows {Cell : Type} (srv : Server Cell) (start : Int)
    (stop? : Option Int) : M (RowIter Cell) :=
  M.bind (DataSet.get_info srv) fun info =>
    let max_row : Int := info.rowCount
    let stop := stop?.getD max_row
    if 0 ≤ start ∧ start ≤ stop ∧ stop ≤ max_row then
      M.bind (DataSet.values srv stop) fun tbl =>
        M.pure { info := info, rows := tbl, stop := stop, idx := start }
    else
      M.throw (.valueError (rangeErrMsg info.rowCount))

/-- Exhaust an iterator, collecting every yielded row (the `for row in it`
consumption loop).  `next` at `idx ≥ stop` returns `StopIteration` with no
side effect, so checking the bound here first is observationally the same
as calling `next` once more. -/
def RowIter.drain {Cell : Type} (srv : Server Cell) (it : RowIter Cell) :
    M (List (Row Cell)) :=
  if h : it.idx < it.stop then
    M.bind (it.next srv) fun o =>
      match o with
      | none => M.pure []
      | some (r, _) =>
        M.bind (RowIter.drain srv { it with idx := it.idx + 1 }) fun rs =>
          M.pure (r :: rs)
  else M.pure []
  termination_by (it.stop - it.idx).toNat
  decreasing_by omega

/-- A node of the project graph, as `Project._find_node` reads it: the
`name`, `type` and `id` entries of the node dict. -/
structure PNode where
  name : String
  type : String
  id : Nat
  deriving DecidableEq, Repr

/-- Argument of node resolution: a bare name string or a dict with `name`
and `type`. -/
def NodeArg : Type := Sum String (String × String)

/-- The requested name of a `NodeArg`. -/
def NodeArg.reqName : NodeArg → String
  | .inl n => n
  | .inr p => p.1

/-- The requested type of a `NodeArg` (`None` for a bare name). -/
def NodeArg.reqType : NodeArg → Option String
  | .inl _ => none
  | .inr p => some p.2

/-- A single quote character, for building Python f-string messages. -/
def sglQuote : String := String.singleton (Char.ofNat 39)

/-- The `APIException` message of `Project._find_node` for a failed
resolution: Python renders an absent type as the string `None`. -/
def nodeNotFoundMsg (name : String) (type? : Option String) : String :=
  "Node not found: name=" ++ sglQuote ++ name ++ sglQuote ++ ", type=" ++ sglQuote ++
    (match type? with | none => "None" | some t => t) ++ sglQuote

/-- Whether a node matches the resolution argument: exact name match, and
exact type match whenever a type was supplied. -/
def nodeMatches (arg : NodeArg) (n : PNode) : Bool :=
  n.name == arg.reqName && (arg.reqType == none || some n.type == arg.reqType)

/-- `Project._find_node` (project.py:186-196): scan the cached node list
in order and return the first match; raise `APIException` with status 500
when no node matches.  Pure: issues no request. -/
def find_node (nodes : List PNode) (arg : NodeArg) : Except PyErr PNode :=
  match nodes.find? (nodeMatches arg) with
  | some n => .ok n
  | none => .error (.apiError (nodeNotFoundMsg arg.reqName arg.reqType) none (some 500))

/-- `Project.__init__`-visible state: the cached `_node_list`. -/
structure ProjectState where
  node_list : List PNode
  deriving DecidableEq, Repr

/-- `Project.__init__`: the node-list cache starts empty. -/
def Project.init : ProjectState := { node_list := [] }

/-- The name-resolution loop of `Project.execute` (project.py:100-103):
resolve every argument against the cached node list, collecting
`{name, type}` payloads; the first failed resolution raises. -/
def Project.resolveNodes (ps : ProjectState) :
    List NodeArg → Except PyErr (List (String × String))
  | [] => .ok []
  | a :: rest =>
    match find_node ps.node_list a with
    | .error e => .error e
    | .ok n =>
      match Project.resolveNodes ps rest with
      | .error e => .error e
      | .ok ns => .ok ((n.name, n.type) :: ns)

/-- `Project.execute`: resolve all node arguments first (raising before
any request when one is unresolvable), then issue the single
`project/execute` request.  The response payload (location-header wave-id
parsing, optional waiting) is opaque here: no claim concerns it. -/
def Project.execute {Cell : Type} (srv : Server Cell) (ps : ProjectState)
    (args : List NodeArg) : M Cell :=
  match Project.resolveNodes ps args with
  | .error e => M.throw e
  | .ok nodes => fun s =>
    ({ s with log := s.log ++ [Request.projectExecute nodes] },
      srv.executeResp s.log nodes)

/-- `Project.dataset` (project.py:144-151): resolve the node against the
cached list and construct the `DataSet` wrapper (guid sentinel, no
request). -/
def Project.dataset (ps : ProjectState) (arg : NodeArg) :
    Except PyErr (PNode × DSState) :=
  match find_node ps.node_list arg with
  | .error e => .error e
  | .ok n => .ok (n, DataSet.init)

/-- `Project.parameters` (project.py:153-160): resolve the name against
the cached list and keep the resolved node id (no request). -/
def Project.parameters (ps : ProjectState) (name : String) : Except PyErr Nat :=
  match find_node ps.node_list (.inl name) with
  | .error e => .error e
  | .ok n => .ok n.id

/-- The value `RowIterator.__next__` stores for column `c` of row `i` when
every fetch succeeds: the cell-text oracle's answer for a `getTextAlways`
column, the bulk-block cell otherwise. -/
def colVal {Cell : Type} (ctf cellAt : Int → Nat → Cell) (i : Int)
    (c : ColumnInfo) : Cell :=
  if c.flags.getTextAlways then ctf i c.id else cellAt i c.id

/-- The row dict built for row `i` over the given columns (pure image of
`buildRow` when every fetch succeeds). -/
def specRow {Cell : Type} (ctf cellAt : Int → Nat → Cell) (i : Int) :
    List ColumnInfo → Row Cell → Row Cell
  | [], acc => acc
  | c :: cs, acc =>
    specRow ctf cellAt i cs (dictInsert c.title (colVal ctf cellAt i c) acc)

/-- The rows yielded for cursor range `[start, stop)`, in increasing
index order: the `k`-th element is the row of index `start + k`. -/
def specRows {Cell : Type} (ctf cellAt : Int → Nat → Cell)
    (cols : List ColumnInfo) (start stop : Int) : List (Row Cell) :=
  (List.range (stop - start).toNat).map
    (fun (k : Nat) => specRow ctf cellAt (start + (k : Int)) cols [])

/-- The `dataset/cell-text` requests one row production issues: one per
`getTextAlways` column, in column order. -/
def cellTextReqs (g : String) (i : Int) (cs : List ColumnInfo) : List Request :=
  (cs.filter (fun c => c.flags.getTextAlways)).map
    (fun c => Request.cellText g i c.id c.title)

/-- All `dataset/cell-text` requests issued when consuming rows
`[start, stop)`. -/
def cellTextLogs (g : String) (cols : List ColumnInfo) (start stop : Int) :
    List Request :=
  ((List.range (stop - start).toNat).map
    (fun (k : Nat) => cellTextReqs g (start + (k : Int)) cols)).flatten

/-- A server whose dataset responses always succeed, with history- and
guid-independent payloads: `info`, the bulk block `tbl`, and cell text
`ctf row col`. -/
structure NiceServer {Cell : Type} (srv : Server Cell) (info : DatasetInfo)
    (tbl : List (List Cell)) (ctf : Int → Nat → Cell) : Prop where
  info_ok : ∀ log g, srv.infoResp log g = .ok info
  values_ok : ∀ log g rc, srv.valuesResp log g rc = .ok tbl
  cellText_ok : ∀ log g r c, srv.cellTextResp log g r c = .ok (ctf r c)

/-- Concrete wrapper-guid oracle: always issues the guid `G`. -/
def wgW : List Request → Except PyErr String := fun _ => .ok "G"

/-- Concrete endpoint oracle: rejects the empty sentinel guid with the
wrapper-not-found condition and answers `7` for any real guid. -/
def oracleW : List Request → String → Except PyErr Nat :=
  fun _ g => if g = "" then .error .wrapperNotFound else .ok 7

/-- Concrete server on which every handle-scoped attempt is rejected with
the wrapper-not-found condition while guid re-acquisition succeeds. -/
def srvC3 : Server Unit where
  infoResp := fun _ _ => .error .wrapperNotFound
  progressResp := fun _ _ => .error .wrapperNotFound
  wrapperGuidResp := fun _ => .ok "g2"
  valuesResp := fun _ _ _ => .error .wrapperNotFound
  cellTextResp := fun _ _ _ _ => .error .wrapperNotFound
  executeResp := fun _ _ => .error .wrapperNotFound

/-- A text-overflow column (`getTextAlways` set). -/
def colNotes : ColumnInfo := { id := 0, title := "notes", ctype := "Text", flags := ⟨true⟩ }

/-- A plain column read from the bulk block. -/
def colV : ColumnInfo := { id := 0, title := "v", ctype := "Int", flags := ⟨false⟩ }

/-- Concrete dataset info: two rows, one overflow and one plain column. -/
def infoW : DatasetInfo := { rowCount := 2, columnsInfo := [colNotes, colV] }

/-- Concrete bulk block for `infoW`. -/
def tblW : List (List Nat) := [[10], [20]]

/-- Concrete cell-text payloads. -/
def ctfW : Int → Nat → Nat := fun r c => 100 + r.toNat + c

/-- Bulk-block contents of `tblW` as a function. -/
def cellAtW : Int → Nat → Nat := fun r _ => if r = 0 then 10 else 20

/-- Concrete always-succeeding server over `infoW`/`tblW`/`ctfW`. -/
def srvW : Server Nat where
  infoResp := fun _ _ => .ok infoW
  progressResp := fun _ _ => .ok 0
  wrapperGuidResp := fun _ => .ok "G"
  valuesResp := fun _ _ _ => .ok tblW
  cellTextResp := fun _ _ r c => .ok (ctfW r c)
  executeResp := fun _ _ => .ok 0

/-- Concrete server rejecting only the sentinel guid, used to exercise the
first-call acquire-then-retry path. -/
def srvC9 : Server Unit where
  infoResp := fun _ g => if g = "" then .error .wrapperNotFound else .ok ⟨3, []⟩
  progressResp := fun _ _ => .ok ()
  wrapperGuidResp := fun _ => .ok "G"
  valuesResp := fun _ _ _ => .ok []
  cellTextResp := fun _ _ _ _ => .ok ()
  executeResp := fun _ _ => .ok ()

/-- The two-node list of the spec's ambiguity example: two nodes named
`A` with types `X` and `Y`. -/
def nodesAB : List PNode := [⟨"A", "X", 0⟩, ⟨"A", "Y", 1⟩]

theorem handleOp_apply {α : Type} (reqFn : String → Request)
    (oracle : List Request → String → Except PyErr α) (s : DSState) :
    handleOp reqFn oracle s =
      ({ s with log := s.log ++ [reqFn s.guid] }, oracle s.log s.guid) := rfl

theorem updateGuidOp_ok (wg : List Request → Except PyErr String) (s : DSState)
    (g : String) (h : wg s.log = .ok g) :
    updateGuidOp wg s =
      ({ guid := g, log := s.log ++ [Request.wrapperGuid] }, .ok ()) := by
  unfold updateGuidOp; rw [h]

theorem updateGuidOp_err (wg : List Request → Except PyErr String) (s : DSState)
    (e : PyErr) (h : wg s.log = .error e) :
    updateGuidOp wg s =
      ({ s with log := s.log ++ [Request.wrapperGuid] }, .error e) := by
  unfold updateGuidOp; rw [h]

theorem retry_first_ok {α : Type} (u : M Unit) (op : M α) (s s1 : DSState)
    (a : α) (h : op s = (s1, .ok a)) :
    retry_on_invalid_guid u op s = (s1, .ok a) := by
  unfold retry_on_invalid_guid; rw [h]

theorem retry_first_err {α : Type} (u : M Unit) (op : M α) (s s1 : DSState)
    (e : PyErr) (h : op s = (s1, .error e)) (hne : e ≠ .wrapperNotFound) :
    retry_on_invalid_guid u op s = (s1, .error e) := by
  unfold retry_on_invalid_guid; rw [h]; simp [hne]

theorem retry_wnf_update_ok {α : Type} (u : M Unit) (op : M α)
    (s s1 s2 : DSState) (x : Unit) (h1 : op s = (s1, .error .wrapperNotFound))
    (h2 : u s1 = (s2, .ok x)) :
    retry_on_invalid_guid u op s = op s2 := by
  unfold retry_on_invalid_guid; rw [h1]; simp; rw [h2]

theorem retry_wnf_update_err {α : Type} (u : M Unit) (op : M α)
    (s s1 s2 : DSState) (e2 : PyErr)
    (h1 : op s = (s1, .error .wrapperNotFound)) (h2 : u s1 = (s2, .error e2)) :
    retry_on_invalid_guid u op s = (s2, .error e2) := by
  unfold retry_on_invalid_guid; rw [h1]; simp; rw [h2]

/-- C1: each handle-scoped operation (`get_info`, `get_progress`, the bulk
`_values` fetch, the single-cell `_cell_text` fetch) is the retry wrapper
around one endpoint attempt, and for every such wrapped attempt: a first
attempt is always made; with no `HandleNotFound` failure no re-acquire
happens and the outcome passes through unmodified; a first-attempt
`HandleNotFound` triggers exactly one guid re-acquire followed by exactly
one further attempt whose outcome (even a second `HandleNotFound`) is
final — the request logs pin the exact number of attempts and
re-acquisitions in every case. -/
theorem claim_C1 {Cell α : Type} :
    (∀ srv : Server Cell,
      DataSet.get_info srv =
        retry_on_invalid_guid (updateGuidOp srv.wrapperGuidResp)
          (handleOp Request.info srv.infoResp) ∧
      DataSet.get_progress srv =
        retry_on_invalid_guid (updateGuidOp srv.wrapperGuidResp)
          (handleOp Request.progress srv.progressResp) ∧
      (∀ rc, DataSet.values srv rc =
        retry_on_invalid_guid (updateGuidOp srv.wrapperGuidResp)
          (handleOp (fun g => Request.values g rc)
            (fun log g => srv.valuesResp log g rc))) ∧
      (∀ r c t, DataSet.cell_text srv r c t =
        retry_on_invalid_guid (updateGuidOp srv.wrapperGuidResp)
          (handleOp (fun g => Request.cellText g r c t)
            (fun log g => srv.cellTextResp log g r c)))) ∧
    (∀ (wg : List Request → Except PyErr String) (reqFn : String → Request)
        (oracle : List Request → String → Except PyErr α) (s : DSState),
      (∀ a, oracle s.log s.guid = .ok a →
        retry_on_invalid_guid (updateGuidOp wg) (handleOp reqFn oracle) s =
          ({ s with log := s.log ++ [reqFn s.guid] }, .ok a)) ∧
      (∀ e, oracle s.log s.guid = .error e → e ≠ .wrapperNotFound →
        retry_on_invalid_guid (updateGuidOp wg) (handleOp reqFn oracle) s =
          ({ s with log := s.log ++ [reqFn s.guid] }, .error e)) ∧
      (∀ g2, oracle s.log s.guid = .error .wrapperNotFound →
        wg (s.log ++ [reqFn s.guid]) = .ok g2 →
        retry_on_invalid_guid (updateGuidOp wg) (handleOp reqFn oracle) s =
          (⟨g2, s.log ++ [reqFn s.guid, Request.wrapperGuid, reqFn g2]⟩,
            oracle (s.log ++ [reqFn s.guid, Request.wrapperGuid]) g2)) ∧
      (∀ e2, oracle s.log s.guid = .error .wrapperNotFound →
        wg (s.log ++ [reqFn s.guid]) = .error e2 →
        retry_on_invalid_guid (updateGuidOp wg) (handleOp reqFn oracle) s =
          ({ s with log := s.log ++ [reqFn s.guid, Request.wrapperGuid] },
            .error e2))) := by
  constructor
  · intro srv
    exact ⟨rfl, rfl, fun _ => rfl, fun _ _ _ => rfl⟩
  · intro wg reqFn oracle s
    refine ⟨?_, ?_, ?_, ?_⟩
    · intro a h
      exact retry_first_ok _ _ _ _ a (by rw [handleOp_apply, h])
    · intro e h hne
      exact retry_first_err _ _ _ _ e (by rw [handleOp_apply, h]) hne
    · intro g2 h1 h2
      have hop : handleOp reqFn oracle s =
          ({ s with log := s.log ++ [reqFn s.guid] }, .error .wrapperNotFound) := by
        rw [handleOp_apply, h1]
      have hu : updateGuidOp wg { s with log := s.log ++ [reqFn s.guid] } =
          ({ guid := g2, log := (s.log ++ [reqFn s.guid]) ++ [Request.wrapperGuid] },
            .ok ()) := by
        exact updateGuidOp_ok wg _ g2 h2
      rw [retry_wnf_update_ok _ _ _ _ _ () hop hu, handleOp_apply]
      simp
    · intro e2 h1 h2
      have hop : handleOp reqFn oracle s =
          ({ s with log := s.log ++ [reqFn s.guid] }, .error .wrapperNotFound) := by
        rw [handleOp_apply, h1]
      have hu := updateGuidOp_err wg { s with log := s.log ++ [reqFn s.guid] } e2 h2
      rw [retry_wnf_update_err _ _ _ _ _ e2 hop hu]
      simp

/-- Witness for C1: on a server that rejects the sentinel guid once and
hands out guid `G`, the wrapped info fetch performs attempt, re-acquire,
attempt, and returns the retried result. -/
theorem claim_C1_witness :
    retry_on_invalid_guid (updateGuidOp wgW) (handleOp Request.info oracleW)
      DataSet.init =
      (⟨"G", [Request.info "", Request.wrapperGuid, Request.info "G"]⟩,
        .ok 7) := by
  have h := (@claim_C1 Unit Nat).2 wgW Request.info oracleW
    DataSet.init
  have h3 := h.2.2.1 "G" rfl rfl
  rw [h3]; rfl

theorem retry_log_shape {α : Type} (wg : List Request → Except PyErr String)
    (reqFn : String → Request)
    (oracle : List Request → String → Except PyErr α) (s : DSState) :
    ∃ tail,
      (retry_on_invalid_guid (updateGuidOp wg) (handleOp reqFn oracle) s).1.log =
        s.log ++ [reqFn s.guid] ++ tail ∧
      ∀ r ∈ tail, r = Request.wrapperGuid ∨ ∃ g, r = reqFn g := by
  by_cases hwnf : oracle s.log s.guid = .error .wrapperNotFound
  · have hop : handleOp reqFn oracle s =
        ({ s with log := s.log ++ [reqFn s.guid] }, .error .wrapperNotFound) := by
      rw [handleOp_apply, hwnf]
    rcases hwg : wg (s.log ++ [reqFn s.guid]) with e2 | g2
    · have hu := updateGuidOp_err wg { s with log := s.log ++ [reqFn s.guid] }
        e2 hwg
      rw [retry_wnf_update_err _ _ _ _ _ e2 hop hu]
      exact ⟨[Request.wrapperGuid], by simp⟩
    · have hu := updateGuidOp_ok wg { s with log := s.log ++ [reqFn s.guid] }
        g2 hwg
      rw [retry_wnf_update_ok _ _ _ _ _ () hop hu, handleOp_apply]
      refine ⟨[Request.wrapperGuid, reqFn g2], by simp, ?_⟩
      intro r hr
      simp only [List.mem_cons, List.not_mem_nil, or_false] at hr
      rcases hr with h | h
      · exact Or.inl h
      · exact Or.inr ⟨g2, h⟩
  · rcases h1 : oracle s.log s.guid with e1 | a
    · have hne : e1 ≠ .wrapperNotFound := by
        intro hh; rw [hh] at h1; exact hwnf h1
      rw [retry_first_err _ _ _ _ e1 (by rw [handleOp_apply, h1]) hne]
      exact ⟨[], by simp⟩
    · rw [retry_first_ok _ _ _ _ a (by rw [handleOp_apply, h1])]
      exact ⟨[], by simp⟩

/-- Counterexample to C3: on a server that rejects every guid, the wrapped
info fetch surfaces the internal wrapper-not-found condition itself to the
caller (the second `HandleNotFound` propagates unconverted). -/
theorem claim_C3_cex :
    (DataSet.get_info srvC3 DataSet.init).2 =
      Except.error PyErr.wrapperNotFound := rfl

/-- C3 (amended): the wrapper surfaces `HandleNotFound` exactly when the
first attempt fails with `HandleNotFound` and then the re-acquire request
or the retried attempt fails with `HandleNotFound` again; in every other
case the surfaced failure is the operation's own `APIError`/`ClientError`,
unmodified. -/
theorem claim_C3 {α : Type} (wg : List Request → Except PyErr String)
    (reqFn : String → Request)
    (oracle : List Request → String → Except PyErr α) (s : DSState) :
    (retry_on_invalid_guid (updateGuidOp wg) (handleOp reqFn oracle) s).2 =
        .error .wrapperNotFound ↔
      oracle s.log s.guid = .error .wrapperNotFound ∧
        (wg (s.log ++ [reqFn s.guid]) = .error .wrapperNotFound ∨
          ∃ g2, wg (s.log ++ [reqFn s.guid]) = .ok g2 ∧
            oracle (s.log ++ [reqFn s.guid, Request.wrapperGuid]) g2 =
              .error .wrapperNotFound) := by
  by_cases hwnf : oracle s.log s.guid = .error .wrapperNotFound
  · have hop : handleOp reqFn oracle s =
        ({ s with log := s.log ++ [reqFn s.guid] }, .error .wrapperNotFound) := by
      rw [handleOp_apply, hwnf]
    rcases hwg : wg (s.log ++ [reqFn s.guid]) with e2 | g2
    · have hu := updateGuidOp_err wg { s with log := s.log ++ [reqFn s.guid] }
        e2 hwg
      rw [retry_wnf_update_err _ _ _ _ _ e2 hop hu]
      simp [hwnf, hwg]
    · have hu := updateGuidOp_ok wg { s with log := s.log ++ [reqFn s.guid] }
        g2 hwg
      rw [retry_wnf_update_ok _ _ _ _ _ () hop hu, handleOp_apply]
      simp [hwnf, hwg, List.append_assoc]
  · rcases h1 : oracle s.log s.guid with e1 | a
    · have hne : e1 ≠ .wrapperNotFound := by
        intro hh; rw [hh] at h1; exact hwnf h1
      rw [retry_first_err _ _ _ _ e1 (by rw [handleOp_apply, h1]) hne]
      simp [h1, hne]
    · rw [retry_first_ok _ _ _ _ a (by rw [handleOp_apply, h1])]
      simp [h1]

/-- Witness for C3 (amended): on `srvC3` the surfaced wrapper-not-found is
explained by the characterization (both attempts were rejected). -/
theorem claim_C3_witness :
    srvC3.infoResp DataSet.init.log DataSet.init.guid =
        .error .wrapperNotFound ∧
      (srvC3.wrapperGuidResp
          (DataSet.init.log ++ [Request.info DataSet.init.guid]) =
            .error .wrapperNotFound ∨
        ∃ g2, srvC3.wrapperGuidResp
            (DataSet.init.log ++ [Request.info DataSet.init.guid]) = .ok g2 ∧
          srvC3.infoResp
            (DataSet.init.log ++
              [Request.info DataSet.init.guid, Request.wrapperGuid]) g2 =
            .error .wrapperNotFound) :=
  (claim_C3 srvC3.wrapperGuidResp Request.info srvC3.infoResp DataSet.init).mp
    rfl

/-- C9: a fresh `DataSet` carries the empty-string sentinel guid and has
issued no request; the very first handle-scoped operation runs with the
sentinel (its first logged request carries guid `""`), succeeding directly
if the server accepts the sentinel, and otherwise acquiring the real guid
through the generic re-acquire-and-retry path — there is no eager
acquisition at construction and no special first-call branch. -/
theorem claim_C9 :
    DataSet.init.guid = "" ∧ DataSet.init.log = [] ∧
    (∀ {Cell : Type} (srv : Server Cell) (info : DatasetInfo),
      srv.infoResp [] "" = .ok info →
      DataSet.get_info srv DataSet.init = (⟨"", [Request.info ""]⟩, .ok info)) ∧
    (∀ {Cell : Type} (srv : Server Cell) (g2 : String),
      srv.infoResp [] "" = .error .wrapperNotFound →
      srv.wrapperGuidResp [Request.info ""] = .ok g2 →
      DataSet.get_info srv DataSet.init =
        (⟨g2, [Request.info "", Request.wrapperGuid, Request.info g2]⟩,
          srv.infoResp [Request.info "", Request.wrapperGuid] g2)) := by
  refine ⟨rfl, rfl, ?_, ?_⟩
  · intro Cell srv info h
    have hop : handleOp Request.info srv.infoResp DataSet.init =
        (⟨"", [Request.info ""]⟩, .ok info) := by
      rw [handleOp_apply]
      simp [DataSet.init, h]
    exact retry_first_ok _ _ _ _ info hop
  · intro Cell srv g2 h1 h2
    have hop : handleOp Request.info srv.infoResp DataSet.init =
        (⟨"", [Request.info ""]⟩, .error .wrapperNotFound) := by
      rw [handleOp_apply]
      simp [DataSet.init, h1]
    have hu : updateGuidOp srv.wrapperGuidResp ⟨"", [Request.info ""]⟩ =
        (⟨g2, [Request.info "", Request.wrapperGuid]⟩, .ok ()) := by
      have := updateGuidOp_ok srv.wrapperGuidResp ⟨"", [Request.info ""]⟩ g2 h2
      simpa using this
    have hr := retry_wnf_update_ok (updateGuidOp srv.wrapperGuidResp)
      (handleOp Request.info srv.infoResp) DataSet.init _ _ () hop hu
    rw [DataSet.get_info, hr, handleOp_apply]; rfl

/-- Witness for C9: on `srvC9` (sentinel rejected once, guid `G` issued)
the first info fetch acquires the guid through the retry path and
returns the info. -/
theorem claim_C9_witness :
    DataSet.get_info srvC9 DataSet.init =
      (⟨"G", [Request.info "", Request.wrapperGuid, Request.info "G"]⟩,
        .ok ⟨3, []⟩) := by
  have h := claim_C9.2.2.2 srvC9 "G" rfl rfl
  rw [h]; rfl

theorem M.bind_ok {α β : Type} (m : M α) (f : α → M β) (s s1 : DSState) (a : α)
    (h : m s = (s1, .ok a)) : M.bind m f s = f a s1 := by
  unfold M.bind; rw [h]

theorem M.bind_err {α β : Type} (m : M α) (f : α → M β) (s s1 : DSState)
    (e : PyErr) (h : m s = (s1, .error e)) : M.bind m f s = (s1, .error e) := by
  unfold M.bind; rw [h]

theorem iter_rows_invalid_bounds {Cell : Type} (srv : Server Cell)
    (s0 s1 : DSState) (info : DatasetInfo) (start stop : Int)
    (hinfo : DataSet.get_info srv s0 = (s1, .ok info))
    (hcond : ¬(0 ≤ start ∧ start ≤ stop ∧ stop ≤ (info.rowCount : Int))) :
    iter_rows srv start (some stop) s0 =
      (s1, .error (.valueError (rangeErrMsg info.rowCount))) ∧
    ∃ ext, s1.log = s0.log ++ ext ∧ ∀ r ∈ ext, r.isRowFetch = false := by
  constructor
  · unfold iter_rows
    rw [M.bind_ok _ _ _ _ _ hinfo]
    simp only [Option.getD_some]
    rw [if_neg hcond]; rfl
  · obtain ⟨tail, hlog, hcls⟩ := retry_log_shape srv.wrapperGuidResp
      Request.info srv.infoResp s0
    rw [show (retry_on_invalid_guid (updateGuidOp srv.wrapperGuidResp)
        (handleOp Request.info srv.infoResp) s0) = (s1, Except.ok info)
      from hinfo] at hlog
    refine ⟨[Request.info s0.guid] ++ tail, by simpa [List.append_assoc] using hlog, ?_⟩
    intro r hr
    rcases List.mem_append.mp hr with h | h
    · simp only [List.mem_singleton] at h
      subst h; rfl
    · rcases hcls r h with h2 | ⟨g, h2⟩ <;> subst h2 <;> rfl

/-- Counterexample to C4: calling `iter_rows` with `start > stop` does
raise the range `ValueError`, but only after the call has already issued
the `dataset/info` network request — the violating call's log is not
empty when the error is raised. -/
theorem claim_C4_cex :
    iter_rows srvW 1 (some 0) DataSet.init =
      ({ guid := "", log := [Request.info ""] },
        .error (.valueError (rangeErrMsg 2))) ∧
    [Request.info ""] ≠ ([] : List Request) := ⟨rfl, by decide⟩

/-- C4 (amended): a bounds violation in `iter_rows` raises the range
`ValueError` before any row-fetch request (bulk `dataset/values` or
`dataset/cell-text`) is issued, though after the one `dataset/info`
fetch the method performs first; an unresolvable node name makes
`Project.execute` raise before its network request, and `Project.dataset`
and `Project.parameters` resolve purely (no request at all). -/
theorem claim_C4 {Cell : Type} :
    (∀ (srv : Server Cell) (s0 s1 : DSState) (info : DatasetInfo)
        (start stop : Int),
      DataSet.get_info srv s0 = (s1, .ok info) →
      ¬(0 ≤ start ∧ start ≤ stop ∧ stop ≤ (info.rowCount : Int)) →
      iter_rows srv start (some stop) s0 =
        (s1, .error (.valueError (rangeErrMsg info.rowCount))) ∧
      ∃ ext, s1.log = s0.log ++ ext ∧ ∀ r ∈ ext, r.isRowFetch = false) ∧
    (∀ (srv : Server Cell) (ps : ProjectState) (args : List NodeArg)
        (e : PyErr) (s : DSState),
      Project.resolveNodes ps args = .error e →
      Project.execute srv ps args s = (s, .error e)) ∧
    (∀ (ps : ProjectState) (arg : NodeArg) (e : PyErr),
      find_node ps.node_list arg = .error e →
      Project.dataset ps arg = .error e) ∧
    (∀ (ps : ProjectState) (name : String) (e : PyErr),
      find_node ps.node_list (.inl name) = .error e →
      Project.parameters ps name = .error e) := by
  refine ⟨?_, ?_, ?_, ?_⟩
  · intro srv s0 s1 info start stop hinfo hcond
    exact iter_rows_invalid_bounds srv s0 s1 info start stop hinfo hcond
  · intro srv ps args e s h
    unfold Project.execute
    rw [h]
    rfl
  · intro ps arg e h
    unfold Project.dataset
    rw [h]
  · intro ps name e h
    unfold Project.parameters
    rw [h]

/-- Witness for C4 (amended): the bounds conjunct at `start = 1`,
`stop = 0` on `srvW`. -/
theorem claim_C4_witness :
    iter_rows srvW 1 (some 0) DataSet.init =
      ({ guid := "", log := [Request.info ""] },
        .error (.valueError (rangeErrMsg infoW.rowCount))) :=
  ((@claim_C4 Nat).1 srvW DataSet.init
    { guid := "", log := [Request.info ""] } infoW 1 0 rfl (by decide)).1

/-- C5: calling `iter_rows` with `start > stop` or `stop > rowCount`
raises the range `ValueError`, and at that point no bulk row-block
(`dataset/values`) and no single-cell (`dataset/cell-text`) request has
been issued. -/
theorem claim_C5 {Cell : Type} (srv : Server Cell) (s0 s1 : DSState)
    (info : DatasetInfo) (start stop : Int)
    (hinfo : DataSet.get_info srv s0 = (s1, .ok info))
    (hbad : stop < start ∨ (info.rowCount : Int) < stop) :
    iter_rows srv start (some stop) s0 =
      (s1, .error (.valueError (rangeErrMsg info.rowCount))) ∧
    ∃ ext, s1.log = s0.log ++ ext ∧ ∀ r ∈ ext, r.isRowFetch = false := by
  refine iter_rows_invalid_bounds srv s0 s1 info start stop hinfo ?_
  rcases hbad with h | h <;> omega

/-- Witness for C5: `stop = 3` exceeds `rowCount = 2` on `srvW`. -/
theorem claim_C5_witness :
    iter_rows srvW 0 (some 3) DataSet.init =
      ({ guid := "", log := [Request.info ""] },
        .error (.valueError (rangeErrMsg infoW.rowCount))) :=
  (claim_C5 srvW DataSet.init { guid := "", log := [Request.info ""] }
    infoW 0 3 rfl (Or.inr (by decide))).1

theorem find?_first {α : Type} (p : α → Bool) (l : List α) (b : α)
    (h : l.find? p = some b) :
    ∃ i : Fin l.length, l.get i = b ∧ p b = true ∧
      ∀ j : Fin l.length, (j : Nat) < (i : Nat) → p (l.get j) = false := by
  induction l with
  | nil => cases h
  | cons a t ih =>
    by_cases pa : p a = true
    · rw [List.find?_cons_of_pos t pa] at h
      cases h
      exact ⟨⟨0, by simp⟩, rfl, pa, fun j hj => absurd hj (Nat.not_lt_zero _)⟩
    · rw [List.find?_cons_of_neg t pa] at h
      obtain ⟨i, hget, hpb, hfirst⟩ := ih h
      refine ⟨⟨i + 1, by simp only [List.length_cons]; omega⟩, hget, hpb, ?_⟩
      intro j hj
      match j with
      | ⟨0, _⟩ => simpa using Bool.of_not_eq_true pa
      | ⟨k + 1, hk⟩ =>
        exact hfirst ⟨k, by simp only [List.length_cons] at hk; omega⟩
          (by simpa using hj)

/-- C8: node resolution demands an exact name match, and an exact type
match when a type is supplied; on the spec's two-node example (two nodes
named `A`, types `X` and `Y`) a bare `"A"` resolves to the first list
entry and `{"A","Y"}` to the second; any successful resolution returns the
first matching entry in list order; and when nothing matches, resolution
fails with the `Node not found` `APIException` carrying the attempted name
and type. -/
theorem claim_C8 :
    (find_node nodesAB (.inl "A") = .ok ⟨"A", "X", 0⟩ ∧
      find_node nodesAB (.inr ("A", "Y")) = .ok ⟨"A", "Y", 1⟩) ∧
    (∀ (nodes : List PNode) (name : String) (n : PNode),
      find_node nodes (.inl name) = .ok n → n.name = name ∧ n ∈ nodes) ∧
    (∀ (nodes : List PNode) (name t : String) (n : PNode),
      find_node nodes (.inr (name, t)) = .ok n →
        n.name = name ∧ n.type = t ∧ n ∈ nodes) ∧
    (∀ (nodes : List PNode) (arg : NodeArg) (n : PNode),
      find_node nodes arg = .ok n →
        ∃ i : Fin nodes.length, nodes.get i = n ∧ nodeMatches arg n = true ∧
          ∀ j : Fin nodes.length, (j : Nat) < (i : Nat) →
            nodeMatches arg (nodes.get j) = false) ∧
    (∀ (nodes : List PNode) (arg : NodeArg),
      (∀ n ∈ nodes, nodeMatches arg n = false) →
      find_node nodes arg =
        .error (.apiError (nodeNotFoundMsg arg.reqName arg.reqType)
          none (some 500))) := by
  have hok : ∀ (nodes : List PNode) (arg : NodeArg) (n : PNode),
      find_node nodes arg = .ok n → nodes.find? (nodeMatches arg) = some n := by
    intro nodes arg n h
    unfold find_node at h
    rcases hf : nodes.find? (nodeMatches arg) with _ | m
    · rw [hf] at h; cases h
    · rw [hf] at h; cases h; rfl
  refine ⟨⟨rfl, rfl⟩, ?_, ?_, ?_, ?_⟩
  · intro nodes name n h
    have hm := List.find?_some (hok nodes (.inl name) n h)
    have hmem := List.mem_of_find?_eq_some (hok nodes (.inl name) n h)
    simp only [nodeMatches, NodeArg.reqName, NodeArg.reqType, Bool.and_eq_true,
      beq_iff_eq] at hm
    exact ⟨hm.1, hmem⟩
  · intro nodes name t n h
    have hm := List.find?_some (hok nodes (.inr (name, t)) n h)
    have hmem := List.mem_of_find?_eq_some (hok nodes (.inr (name, t)) n h)
    simp only [nodeMatches, NodeArg.reqName, NodeArg.reqType, Bool.and_eq_true,
      Bool.or_eq_true, beq_iff_eq] at hm
    rcases hm with ⟨h1, h2 | h2⟩
    · cases h2
    · exact ⟨h1, by injection h2, hmem⟩
  · intro nodes arg n h
    exact find?_first (nodeMatches arg) nodes n (hok nodes arg n h)
  · intro nodes arg hnone
    unfold find_node
    rw [List.find?_eq_none.mpr (by intro x hx; rw [hnone x hx]; simp)]

/-- Witness for C8: the exact-name conjunct applied to the concrete
two-node list. -/
theorem claim_C8_witness :
    (⟨"A", "X", 0⟩ : PNode).name = "A" ∧ (⟨"A", "X", 0⟩ : PNode) ∈ nodesAB :=
  claim_C8.2.1 nodesAB "A" ⟨"A", "X", 0⟩ rfl

/-- C10: a fresh `Project` starts with an empty cached node list, and
`execute`, `dataset` and `parameters` resolve against that cache only: on
the fresh project each of them fails with the `Node not found` error for
every node name, whatever the server holds (the statement quantifies over
every server and never consults it). -/
theorem claim_C10 {Cell : Type} :
    Project.init.node_list = [] ∧
    (∀ arg : NodeArg, find_node Project.init.node_list arg =
      .error (.apiError (nodeNotFoundMsg arg.reqName arg.reqType)
        none (some 500))) ∧
    (∀ arg : NodeArg, Project.dataset Project.init arg =
      .error (.apiError (nodeNotFoundMsg arg.reqName arg.reqType)
        none (some 500))) ∧
    (∀ name : String, Project.parameters Project.init name =
      .error (.apiError (nodeNotFoundMsg name none) none (some 500))) ∧
    (∀ (srv : Server Cell) (arg : NodeArg) (rest : List NodeArg) (s : DSState),
      Project.execute srv Project.init (arg :: rest) s =
        (s, .error (.apiError (nodeNotFoundMsg arg.reqName arg.reqType)
          none (some 500)))) :=
  ⟨rfl, fun _ => rfl, fun _ => rfl, fun _ => rfl, fun _ _ _ _ => rfl⟩

theorem get_info_nice {Cell : Type} {srv : Server Cell} {info : DatasetInfo}
    {tbl : List (List Cell)} {ctf : Int → Nat → Cell}
    (h : NiceServer srv info tbl ctf) (s : DSState) :
    DataSet.get_info srv s =
      ({ s with log := s.log ++ [Request.info s.guid] }, .ok info) :=
  retry_first_ok _ _ _ _ info (by rw [handleOp_apply, h.info_ok])

theorem values_nice {Cell : Type} {srv : Server Cell} {info : DatasetInfo}
    {tbl : List (List Cell)} {ctf : Int → Nat → Cell}
    (h : NiceServer srv info tbl ctf) (rc : Int) (s : DSState) :
    DataSet.values srv rc s =
      ({ s with log := s.log ++ [Request.values s.guid rc] }, .ok tbl) :=
  retry_first_ok _ _ _ _ tbl (by rw [handleOp_apply, h.values_ok])

theorem cell_text_nice {Cell : Type} {srv : Server Cell} {info : DatasetInfo}
    {tbl : List (List Cell)} {ctf : Int → Nat → Cell}
    (h : NiceServer srv info tbl ctf) (r : Int) (c : Nat) (t : String)
    (s : DSState) :
    DataSet.cell_text srv r c t s =
      ({ s with log := s.log ++ [Request.cellText s.guid r c t] },
        .ok (ctf r c)) :=
  retry_first_ok _ _ _ _ (ctf r c) (by rw [handleOp_apply, h.cellText_ok])

theorem buildRow_nice {Cell : Type} {srv : Server Cell} {info : DatasetInfo}
    {tbl : List (List Cell)} {ctf : Int → Nat → Cell}
    (h : NiceServer srv info tbl ctf) (cellAt : Int → Nat → Cell) (i : Int)
    (cs : List ColumnInfo)
    (hcs : ∀ c ∈ cs, c.flags.getTextAlways = false →
      (pyIndex tbl i).bind (fun r => pyIndex r (c.id : Int)) =
        .ok (cellAt i c.id)) :
    ∀ (acc : Row Cell) (s : DSState),
      buildRow srv tbl i cs acc s =
        ({ s with log := s.log ++ cellTextReqs s.guid i cs },
          .ok (specRow ctf cellAt i cs acc)) := by
  induction cs with
  | nil =>
    intro acc s
    simp [buildRow, cellTextReqs, specRow, M.pure]
  | cons c cs ih =>
    intro acc s
    have ihcs : ∀ c2 ∈ cs, c2.flags.getTextAlways = false →
        (pyIndex tbl i).bind (fun r => pyIndex r (c2.id : Int)) =
          .ok (cellAt i c2.id) :=
      fun c2 hc2 => hcs c2 (List.mem_cons_of_mem c hc2)
    by_cases hf : c.flags.getTextAlways
    · unfold buildRow
      rw [if_pos hf]
      rw [M.bind_ok _ _ _ _ _ (cell_text_nice h i c.id c.title s)]
      rw [ih ihcs (dictInsert c.title (ctf i c.id) acc)]
      simp only [specRow, colVal, if_pos hf, cellTextReqs, List.filter_cons,
        hf, List.map_cons]
      simp [List.append_assoc, cellTextReqs]
    · have hfb : c.flags.getTextAlways = false := Bool.of_not_eq_true hf
      have hidx := hcs c (List.mem_cons_self c cs) hfb
      rcases hteq : pyIndex tbl i with e | r0
      · rw [hteq] at hidx
        simp [Except.bind] at hidx
      · rw [hteq] at hidx
        simp only [Except.bind] at hidx
        unfold buildRow
        rw [if_neg hf]
        rw [M.bind_ok _ _ _ _ _
          (show M.ofExcept (pyIndex tbl i) s = (s, Except.ok r0) by
            unfold M.ofExcept; rw [hteq])]
        rw [M.bind_ok _ _ _ _ _
          (show M.ofExcept (pyIndex r0 (c.id : Int)) s =
              (s, Except.ok (cellAt i c.id)) by
            unfold M.ofExcept; rw [hidx])]
        rw [ih ihcs (dictInsert c.title (cellAt i c.id) acc)]
        simp only [specRow, colVal, if_neg hf, cellTextReqs, List.filter_cons,
          hfb]
        simp [cellTextReqs]

theorem next_nice {Cell : Type} {srv : Server Cell} {info : DatasetInfo}
    {tbl : List (List Cell)} {ctf : Int → Nat → Cell}
    (h : NiceServer srv info tbl ctf) (cellAt : Int → Nat → Cell)
    (stop i : Int) (hi : i < stop)
    (hcs : ∀ c ∈ info.columnsInfo, c.flags.getTextAlways = false →
      (pyIndex tbl i).bind (fun r => pyIndex r (c.id : Int)) =
        .ok (cellAt i c.id)) (s : DSState) :
    RowIter.next srv ⟨info, tbl, stop, i⟩ s =
      ({ s with log := s.log ++ cellTextReqs s.guid i info.columnsInfo },
        .ok (some (specRow ctf cellAt i info.columnsInfo [],
          ⟨info, tbl, stop, i + 1⟩))) := by
  unfold RowIter.next
  rw [if_neg (by simpa using not_le.mpr hi)]
  rw [M.bind_ok _ _ _ _ _ (buildRow_nice h cellAt i info.columnsInfo hcs [] s)]
  rfl

theorem next_exhausted {Cell : Type} (srv : Server Cell) (info : DatasetInfo)
    (tbl : List (List Cell)) (stop j : Int) (hj : stop ≤ j) (s : DSState) :
    RowIter.next srv ⟨info, tbl, stop, j⟩ s = (s, .ok none) := by
  unfold RowIter.next
  rw [if_pos (by simpa using hj)]
  rfl

theorem specRows_cons {Cell : Type} (ctf cellAt : Int → Nat → Cell)
    (cols : List ColumnInfo) (i stop : Int) (h : i < stop) :
    specRows ctf cellAt cols i stop =
      specRow ctf cellAt i cols [] :: specRows ctf cellAt cols (i + 1) stop := by
  unfold specRows
  have hn : (stop - i).toNat = (stop - (i + 1)).toNat + 1 := by omega
  rw [hn, List.range_succ_eq_map, List.map_cons, List.map_map]
  congr 1
  · norm_num
  · apply List.map_congr_left
    intro k _
    simp only [Function.comp_apply]
    congr 1
    push_cast
    ring

theorem cellTextLogs_cons (g : String) (cols : List ColumnInfo)
    (i stop : Int) (h : i < stop) :
    cellTextLogs g cols i stop =
      cellTextReqs g i cols ++ cellTextLogs g cols (i + 1) stop := by
  unfold cellTextLogs
  have hn : (stop - i).toNat = (stop - (i + 1)).toNat + 1 := by omega
  rw [hn, List.range_succ_eq_map, List.map_cons, List.map_map,
    List.flatten_cons]
  congr 1
  · norm_num
  · congr 1
    apply List.map_congr_left
    intro k _
    simp only [Function.comp_apply]
    congr 1
    push_cast
    ring

theorem drain_nice {Cell : Type} {srv : Server Cell} {info : DatasetInfo}
    {tbl : List (List Cell)} {ctf : Int → Nat → Cell}
    (h : NiceServer srv info tbl ctf) (cellAt : Int → Nat → Cell)
    (stop : Int) :
    ∀ (n : Nat) (i : Int), (stop - i).toNat = n →
    (∀ k : Int, i ≤ k → k < stop →
      ∀ c ∈ info.columnsInfo, c.flags.getTextAlways = false →
        (pyIndex tbl k).bind (fun r => pyIndex r (c.id : Int)) =
          .ok (cellAt k c.id)) →
    ∀ s : DSState,
      RowIter.drain srv ⟨info, tbl, stop, i⟩ s =
        ({ s with log := s.log ++ cellTextLogs s.guid info.columnsInfo i stop },
          .ok (specRows ctf cellAt info.columnsInfo i stop)) := by
  intro n
  induction n with
  | zero =>
    intro i hn hcs s
    have hle : stop ≤ i := by omega
    unfold RowIter.drain
    rw [dif_neg (by simpa using not_lt.mpr hle)]
    have h0 : (stop - i).toNat = 0 := by omega
    simp [cellTextLogs, specRows, h0, M.pure]
  | succ n ih =>
    intro i hn hcs s
    have hi : i < stop := by omega
    have ihcs : ∀ k : Int, i + 1 ≤ k → k < stop →
        ∀ c ∈ info.columnsInfo, c.flags.getTextAlways = false →
          (pyIndex tbl k).bind (fun r => pyIndex r (c.id : Int)) =
            .ok (cellAt k c.id) :=
      fun k hk1 hk2 => hcs k (by omega) hk2
    have hd := ih (i + 1) (by omega) ihcs
      { guid := s.guid, log := s.log ++ cellTextReqs s.guid i info.columnsInfo }
    unfold RowIter.drain
    rw [dif_pos (by simpa using hi)]
    rw [M.bind_ok _ _ _ _ _
      (next_nice h cellAt stop i hi
        (fun c hc hf => hcs i le_rfl hi c hc hf) s)]
    show (M.bind
        (RowIter.drain srv { info := info, rows := tbl, stop := stop, idx := i + 1 })
        fun rs => M.pure (specRow ctf cellAt i info.columnsInfo [] :: rs))
        { guid := s.guid, log := s.log ++ cellTextReqs s.guid i info.columnsInfo } = _
    rw [M.bind_ok _ _ _ _ _ hd]
    rw [specRows_cons ctf cellAt info.columnsInfo i stop hi,
      cellTextLogs_cons s.guid info.columnsInfo i stop hi]
    simp [M.pure, List.append_assoc]

theorem iter_rows_nice {Cell : Type} {srv : Server Cell} {info : DatasetInfo}
    {tbl : List (List Cell)} {ctf : Int → Nat → Cell}
    (h : NiceServer srv info tbl ctf) (start stop : Int)
    (hb : 0 ≤ start ∧ start ≤ stop ∧ stop ≤ (info.rowCount : Int))
    (s0 : DSState) :
    iter_rows srv start (some stop) s0 =
      ({ s0 with log := s0.log ++
          [Request.info s0.guid, Request.values s0.guid stop] },
        .ok ⟨info, tbl, stop, start⟩) := by
  unfold iter_rows
  rw [M.bind_ok _ _ _ _ _ (get_info_nice h s0)]
  simp only [Option.getD_some]
  rw [if_pos hb]
  rw [M.bind_ok _ _ _ _ _
    (values_nice h stop { s0 with log := s0.log ++ [Request.info s0.guid] })]
  simp [M.pure, List.append_assoc]

/-- C2: for `0 ≤ start ≤ stop ≤ rowCount` on a server whose fetches
succeed, `iter_rows` returns the iterator with its cursor at `start`, and
exhausting it yields exactly `(stop - start)` rows whose `k`-th element is
the row of index `start + k` (increasing index order); once the cursor
index reaches `stop`, every further `next` is `StopIteration` with no
side effect. -/
theorem claim_C2 {Cell : Type} (srv : Server Cell) (info : DatasetInfo)
    (tbl : List (List Cell)) (ctf cellAt : Int → Nat → Cell)
    (h : NiceServer srv info tbl ctf) (start stop : Int) (s0 : DSState)
    (hb : 0 ≤ start ∧ start ≤ stop ∧ stop ≤ (info.rowCount : Int))
    (htbl : ∀ k : Int, start ≤ k → k < stop →
      ∀ c ∈ info.columnsInfo, c.flags.getTextAlways = false →
        (pyIndex tbl k).bind (fun r => pyIndex r (c.id : Int)) =
          .ok (cellAt k c.id)) :
    iter_rows srv start (some stop) s0 =
      ({ s0 with log := s0.log ++
          [Request.info s0.guid, Request.values s0.guid stop] },
        .ok ⟨info, tbl, stop, start⟩) ∧
    (∀ s : DSState,
      RowIter.drain srv ⟨info, tbl, stop, start⟩ s =
        ({ s with log := s.log ++ cellTextLogs s.guid info.columnsInfo start stop },
          .ok (specRows ctf cellAt info.columnsInfo start stop))) ∧
    (specRows ctf cellAt info.columnsInfo start stop).length =
      (stop - start).toNat ∧
    (∀ (s : DSState) (j : Int), stop ≤ j →
      RowIter.next srv ⟨info, tbl, stop, j⟩ s = (s, .ok none)) := by
  refine ⟨iter_rows_nice h start stop hb s0, ?_, ?_, ?_⟩
  · intro s
    exact drain_nice h cellAt stop (stop - start).toNat start rfl htbl s
  · simp [specRows]
  · intro s j hj
    exact next_exhausted srv info tbl stop j hj s

/-- Witness for C2: on the concrete two-row dataset, draining the
iterator for `[1, 2)` yields the single row of index 1. -/
theorem claim_C2_witness :
    RowIter.drain srvW ⟨infoW, tblW, 2, 1⟩ DataSet.init =
      ({ guid := "", log := cellTextLogs "" infoW.columnsInfo 1 2 },
        .ok (specRows ctfW cellAtW infoW.columnsInfo 1 2)) := by
  have h := claim_C2 srvW infoW tblW ctfW cellAtW
    ⟨fun _ _ => rfl, fun _ _ _ => rfl, fun _ _ _ _ => rfl⟩ 1 2 DataSet.init
    (by decide)
    (by
      intro k hk1 hk2 c hc hf
      have hk : k = 1 := by omega
      subst hk
      fin_cases hc
      · simp [colNotes] at hf
      · rfl)
  exact (h.2.1 DataSet.init).trans (by rfl)

/-- C6: for valid bounds on a server whose fetches succeed, `iter_rows`
issues exactly one bulk `dataset/values` request, and that request asks
for the block of the first `stop` rows (`[0, stop)`, not `[start, stop)`);
the iterator's cursor starts at `start`, consumption issues only
`dataset/cell-text` requests, and every yielded row is the row of an index
`start + k ≥ start` — the fetched prefix below `start` is skipped, never
yielded. -/
theorem claim_C6 {Cell : Type} (srv : Server Cell) (info : DatasetInfo)
    (tbl : List (List Cell)) (ctf cellAt : Int → Nat → Cell)
    (h : NiceServer srv info tbl ctf) (start stop : Int) (s0 : DSState)
    (hb : 0 ≤ start ∧ start ≤ stop ∧ stop ≤ (info.rowCount : Int))
    (htbl : ∀ k : Int, start ≤ k → k < stop →
      ∀ c ∈ info.columnsInfo, c.flags.getTextAlways = false →
        (pyIndex tbl k).bind (fun r => pyIndex r (c.id : Int)) =
          .ok (cellAt k c.id)) :
    iter_rows srv start (some stop) s0 =
      ({ s0 with log := s0.log ++
          [Request.info s0.guid, Request.values s0.guid stop] },
        .ok ⟨info, tbl, stop, start⟩) ∧
    ([Request.info s0.guid, Request.values s0.guid stop].filter
      (fun r => r.isRowFetch)) = [Request.values s0.guid stop] ∧
    (∀ s : DSState,
      RowIter.drain srv ⟨info, tbl, stop, start⟩ s =
        ({ s with log := s.log ++ cellTextLogs s.guid info.columnsInfo start stop },
          .ok (specRows ctf cellAt info.columnsInfo start stop))) ∧
    (∀ (g : String) (r : Request),
      r ∈ cellTextLogs g info.columnsInfo start stop →
      ∃ row col t, r = Request.cellText g row col t) ∧
    specRows ctf cellAt info.columnsInfo start stop =
      (List.range (stop - start).toNat).map
        (fun (k : Nat) => specRow ctf cellAt (start + (k : Int))
          info.columnsInfo []) := by
  refine ⟨iter_rows_nice h start stop hb s0, rfl, ?_, ?_, rfl⟩
  · intro s
    exact drain_nice h cellAt stop (stop - start).toNat start rfl htbl s
  · intro g r hr
    simp only [cellTextLogs, cellTextReqs, List.mem_flatten, List.mem_map]
    at hr
    obtain ⟨sub, ⟨k, hk, hsub⟩, hrsub⟩ := hr
    rw [← hsub] at hrsub
    rcases List.mem_map.mp hrsub with ⟨c, hc, hrc⟩
    exact ⟨start + (k : Int), c.id, c.title, hrc.symm⟩

/-- Witness for C6: iterating `[1, 2)` over the concrete two-row dataset
issues the single bulk request for the first 2 rows. -/
theorem claim_C6_witness :
    iter_rows srvW 1 (some 2) DataSet.init =
      ({ guid := "", log := [Request.info "", Request.values "" 2] },
        .ok ⟨infoW, tblW, 2, 1⟩) := by
  have h := claim_C6 srvW infoW tblW ctfW cellAtW
    ⟨fun _ _ => rfl, fun _ _ _ => rfl, fun _ _ _ _ => rfl⟩ 1 2 DataSet.init
    (by decide)
    (by
      intro k hk1 hk2 c hc hf
      have hk : k = 1 := by omega
      subst hk
      fin_cases hc
      · simp [colNotes] at hf
      · rfl)
  exact h.1.trans (by rfl)

theorem dictInsert_notmem {Cell : Type} (k : String) (v : Cell) :
    ∀ (acc : List (String × Cell)), (∀ p ∈ acc, p.1 ≠ k) →
      dictInsert k v acc = acc ++ [(k, v)] := by
  intro acc
  induction acc with
  | nil => intro _; rfl
  | cons p rest ih =>
    intro hne
    unfold dictInsert
    rw [if_neg (hne p (List.mem_cons_self p rest))]
    rw [ih (fun q hq => hne q (List.mem_cons_of_mem p hq))]
    rfl

theorem specRow_eq_map {Cell : Type} (ctf cellAt : Int → Nat → Cell) (i : Int) :
    ∀ (cols : List ColumnInfo) (acc : Row Cell),
      (∀ p ∈ acc, p.1 ∉ cols.map ColumnInfo.title) →
      (cols.map ColumnInfo.title).Nodup →
      specRow ctf cellAt i cols acc =
        acc ++ cols.map (fun c => (c.title, colVal ctf cellAt i c)) := by
  intro cols
  induction cols with
  | nil =>
    intro acc _ _
    simp [specRow]
  | cons c cs ih =>
    intro acc hdisj hnodup
    have hhead : ∀ p ∈ acc, p.1 ≠ c.title := by
      intro p hp he
      exact hdisj p hp (by simp [he])
    have htail : c.title ∉ cs.map ColumnInfo.title :=
      (List.nodup_cons.mp (by simpa using hnodup)).1
    have hnd2 : (cs.map ColumnInfo.title).Nodup :=
      (List.nodup_cons.mp (by simpa using hnodup)).2
    show specRow ctf cellAt i cs (dictInsert c.title (colVal ctf cellAt i c) acc) = _
    rw [dictInsert_notmem c.title _ acc hhead]
    rw [ih (acc ++ [(c.title, colVal ctf cellAt i c)])
      (by
        intro p hp
        rcases List.mem_append.mp hp with hp2 | hp2
        · intro hmem
          exact hdisj p hp2 (by simp [hmem])
        · simp only [List.mem_singleton] at hp2
          subst hp2
          exact htail)
      hnd2]
    simp [List.append_assoc]

theorem lookup_title_map {Cell : Type} (val : ColumnInfo → Cell) :
    ∀ (cols : List ColumnInfo), (cols.map ColumnInfo.title).Nodup →
      ∀ c ∈ cols,
        List.lookup c.title (cols.map (fun c2 => (c2.title, val c2))) =
          some (val c) := by
  intro cols
  induction cols with
  | nil => intro _ c hc; cases hc
  | cons c0 cs ih =>
    intro hnodup c hc
    have htail : c0.title ∉ cs.map ColumnInfo.title :=
      (List.nodup_cons.mp (by simpa using hnodup)).1
    have hnd2 : (cs.map ColumnInfo.title).Nodup :=
      (List.nodup_cons.mp (by simpa using hnodup)).2
    rcases List.mem_cons.mp hc with rfl | hc2
    · simp [List.lookup]
    · have hne : (c.title == c0.title) = false := by
        apply beq_eq_false_iff_ne.mpr
        intro he
        exact htail (he ▸ List.mem_map.mpr ⟨c, hc2, rfl⟩)
      simp only [List.map_cons, List.lookup, hne]
      exact ih hnd2 c hc2

/-- C7: producing a row issues exactly one `dataset/cell-text` request per
`getTextAlways` column (and no other request); the value stored for such a
column is the cell-text oracle's answer for that (row, column) pair —
independent of the cached bulk block, over which the statement is fully
general — while every other column's value is the bulk-block cell; with
distinct column titles the produced mapping holds exactly these values. -/
theorem claim_C7 {Cell : Type} (srv : Server Cell) (info : DatasetInfo)
    (tbl : List (List Cell)) (ctf cellAt : Int → Nat → Cell)
    (h : NiceServer srv info tbl ctf) (stop i : Int) (hi : i < stop)
    (hrow : ∀ c ∈ info.columnsInfo, c.flags.getTextAlways = false →
      (pyIndex tbl i).bind (fun r => pyIndex r (c.id : Int)) =
        .ok (cellAt i c.id)) :
    (∀ s : DSState,
      RowIter.next srv ⟨info, tbl, stop, i⟩ s =
        ({ s with log := s.log ++ cellTextReqs s.guid i info.columnsInfo },
          .ok (some (specRow ctf cellAt i info.columnsInfo [],
            ⟨info, tbl, stop, i + 1⟩)))) ∧
    (∀ (g : String), ∀ c ∈ info.columnsInfo, c.flags.getTextAlways = true →
      Request.cellText g i c.id c.title ∈ cellTextReqs g i info.columnsInfo) ∧
    ((info.columnsInfo.map ColumnInfo.title).Nodup →
      ∀ c ∈ info.columnsInfo,
        List.lookup c.title (specRow ctf cellAt i info.columnsInfo []) =
          some (if c.flags.getTextAlways then ctf i c.id
            else cellAt i c.id)) := by
  refine ⟨?_, ?_, ?_⟩
  · intro s
    exact next_nice h cellAt stop i hi hrow s
  · intro g c hc hf
    simp only [cellTextReqs, List.mem_map]
    exact ⟨c, List.mem_filter.mpr ⟨hc, by simp [hf]⟩, rfl⟩
  · intro hnodup c hc
    rw [specRow_eq_map ctf cellAt i info.columnsInfo [] (by simp) hnodup]
    rw [List.nil_append]
    exact lookup_title_map (colVal ctf cellAt i) info.columnsInfo hnodup c hc

/-- Witness for C7: in the concrete dataset the overflow column `notes`
of row 0 carries the cell-text payload, and the plain column `v` the
bulk-block cell. -/
theorem claim_C7_witness :
    List.lookup colNotes.title (specRow ctfW cellAtW 0 infoW.columnsInfo []) =
      some (if colNotes.flags.getTextAlways then ctfW 0 colNotes.id
        else cellAtW 0 colNotes.id) ∧
    List.lookup colV.title (specRow ctfW cellAtW 0 infoW.columnsInfo []) =
      some (if colV.flags.getTextAlways then ctfW 0 colV.id
        else cellAtW 0 colV.id) := by
  have h := claim_C7 srvW infoW tblW ctfW cellAtW
    ⟨fun _ _ => rfl, fun _ _ _ => rfl, fun _ _ _ _ => rfl⟩ 2 0 (by decide)
    (by
      intro c hc hf
      fin_cases hc
      · simp [colNotes] at hf
      · rfl)
  have hl := h.2.2 (by decide)
  exact ⟨hl colNotes (by simp [infoW]), hl colV (by simp [infoW])⟩
